import Mathlib

/-!
Verification of the Sadovniki consultation bot core against its
natural-language specification.

The Python sources are shallowly embedded: pure string manipulation is
translated to functions on `String` / `List Char`, database tables become
lists of row structures, the pgvector `ORDER BY embedding <=> q LIMIT n`
stage becomes a stable sort on a per-row distance field followed by `take`,
and every fallible external call (LLM generation, database fetch) becomes
an explicit `Except` value supplied through an environment structure, so
that exception propagation versus local recovery is visible in the types.
Float distances and costs are modelled as rationals: every property under
study is order-theoretic, not a rounding property.
-/

namespace Sadovniki

/-! ## Python string primitives

Models of the Python `str` operations the sources use: `str.lower`
(ASCII + Cyrillic simple case mapping, matching what the repository's
Russian-language data exercises), `str.strip`, `in` (substring test),
`str.split()` on whitespace runs, and `str.split(sep)`.
Whitespace is modelled as the ASCII whitespace class.
-/

def pyLowerChar (c : Char) : Char :=
  if 65 ≤ c.toNat ∧ c.toNat ≤ 90 then Char.ofNat (c.toNat + 32)
  else if 0x410 ≤ c.toNat ∧ c.toNat ≤ 0x42F then Char.ofNat (c.toNat + 32)
  else if c.toNat = 0x401 then Char.ofNat 0x451
  else c

def pyLower (s : String) : String :=
  String.mk (s.toList.map pyLowerChar)

def isPySpace (c : Char) : Bool :=
  c = ' ' ∨ c = '\t' ∨ c = '\n' ∨ c = '\r' ∨ c.toNat = 11 ∨ c.toNat = 12

def pyStrip (s : String) : String :=
  String.mk (((s.toList.dropWhile isPySpace).reverse.dropWhile isPySpace).reverse)

/-- Python `needle in haystack` on strings: substring containment. -/
def pyIn (needle haystack : String) : Bool :=
  decide (needle.toList <:+: haystack.toList)

def pySplitWsAux : List Char → List Char → List (List Char)
  | [], acc => if acc = [] then [] else [acc.reverse]
  | c :: cs, acc =>
    if isPySpace c then
      (if acc = [] then pySplitWsAux cs [] else acc.reverse :: pySplitWsAux cs [])
    else pySplitWsAux cs (c :: acc)

/-- Python `s.split()`: split on whitespace runs, dropping empty words. -/
def pySplitWs (s : String) : List String :=
  (pySplitWsAux s.toList []).map String.mk

/-- Python `" ".join(words)`. -/
def pyJoinSpace (words : List String) : String :=
  String.intercalate " " words

/-- Worker for Python `s.split(sep)`: structural recursion on a fuel
argument (initialised to the length of the input, which bounds the number
of steps) so that the kernel can evaluate it. -/
def pySplitOnGo (sep : List Char) : Nat → List Char → List Char → List (List Char)
  | _, [], acc => [acc.reverse]
  | 0, l, acc => [acc.reverse ++ l]
  | fuel + 1, c :: cs, acc =>
    if sep.isPrefixOf (c :: cs) then
      acc.reverse :: pySplitOnGo sep fuel (List.drop (sep.length - 1) cs) []
    else
      pySplitOnGo sep fuel cs (c :: acc)

/-- Python `s.split(sep)` for a non-empty separator. -/
def pySplitOn (sep s : String) : List String :=
  if sep.toList = [] then [s]
  else (pySplitOnGo sep.toList s.toList.length s.toList []).map String.mk

/-! ## Vector-search repositories

`src/services/db/kb_repo.py` and `src/services/db/document_chunks_repo.py`.
A table is a list of row structures.  Every row carries `distance`, the
value `embedding <=> $query` would compute for the one query embedding of
the retrieval call under study; `ORDER BY embedding <=> $1 LIMIT $n`
becomes a stable sort on that field followed by `take`.  Distances and
thresholds are rationals standing in for the Python floats: all the
properties proved below are order-theoretic.
-/

/-- `KB_VECTOR_DIM = 1536` in `kb_repo.py` (`VECTOR_DIM` in
`document_chunks_repo.py` has the same value). -/
def KB_VECTOR_DIM : Nat := 1536

/-- `_normalize_embedding` from `kb_repo.py` lines 10-30 (the copy in
`document_chunks_repo.py` lines 11-26 is identical): pad with zeroes or
truncate to exactly `KB_VECTOR_DIM` entries; `None` becomes the zero
vector.  `none` models the Python `None` argument. -/
def _normalize_embedding : Option (List ℚ) → List ℚ
  | none => List.replicate KB_VECTOR_DIM 0
  | some embedding =>
    let emb := embedding
    let n := emb.length
    if n = KB_VECTOR_DIM then emb
    else if n > KB_VECTOR_DIM then emb.take KB_VECTOR_DIM
    else emb ++ List.replicate (KB_VECTOR_DIM - n) 0

/-- A row of the `knowledge_base` table as selected by `kb_search`. -/
structure KbRow where
  id : Nat
  category : String
  subcategory : Option String
  question : Option String
  answer : String
  is_active : Bool
  distance : ℚ
deriving DecidableEq

/-- The SQL `WHERE` clause of `kb_search` (`kb_repo.py` lines 113-116):
`is_active = TRUE AND category = $2 AND ($3 IS NULL OR subcategory = $3)`. -/
def kb_where (category : String) (subcategory : Option String) (r : KbRow) : Prop :=
  r.is_active = true ∧ r.category = category ∧
    (match subcategory with
     | none => True
     | some s => r.subcategory = some s)

instance (category : String) (subcategory : Option String) :
    DecidablePred (kb_where category subcategory) := by
  intro r
  cases subcategory <;> (unfold kb_where; simp only []; infer_instance)

/-- Ordering relation of `ORDER BY embedding <=> $1`. -/
def kbLe (a b : KbRow) : Prop := a.distance ≤ b.distance

instance : DecidableRel kbLe := fun a b => by unfold kbLe; infer_instance

/-- `kb_search` from `kb_repo.py` lines 78-130: filter by category and
optional subcategory, order by distance, apply `LIMIT`, then in Python
keep only rows with `distance <= distance_threshold` when a threshold is
given.  (The Python defaults are `limit=3`,
`distance_threshold=0.35`.) -/
def kb_search (knowledge_base : List KbRow) (category : String)
    (subcategory : Option String) (limit : Nat)
    (distance_threshold : Option ℚ) : List KbRow :=
  let rows := (((knowledge_base.filter
      (fun r => decide (kb_where category subcategory r))).insertionSort kbLe).take limit)
  match distance_threshold with
  | none => rows
  | some t => rows.filter (fun r => decide (r.distance ≤ t))

/-- A row of the `documents` table (only the columns `chunks_search`
joins on). -/
structure DocumentRow where
  id : Nat
  is_active : Bool
deriving DecidableEq

/-- A row of the `document_chunks` table as selected by `chunks_search`. -/
structure ChunkRow where
  id : Nat
  document_id : Nat
  chunk_text : String
  page_number : Option Nat
  category : String
  subcategory : Option String
  is_active : Bool
  distance : ℚ
deriving DecidableEq

/-- The SQL `WHERE` clause plus `JOIN documents d ON c.document_id = d.id`
of `chunks_search` (`document_chunks_repo.py` lines 119-124):
`c.is_active AND d.is_active AND c.category = $2 AND ($3 IS NULL OR
c.subcategory = $3)`. -/
def chunks_where (documents : List DocumentRow) (category : String)
    (subcategory : Option String) (c : ChunkRow) : Prop :=
  c.is_active = true ∧
  (∃ d ∈ documents, d.id = c.document_id ∧ d.is_active = true) ∧
  c.category = category ∧
  (match subcategory with
   | none => True
   | some s => c.subcategory = some s)

instance (documents : List DocumentRow) (category : String)
    (subcategory : Option String) :
    DecidablePred (chunks_where documents category subcategory) := by
  intro c
  cases subcategory <;> (unfold chunks_where; simp only []; infer_instance)

def chunkLe (a b : ChunkRow) : Prop := a.distance ≤ b.distance

instance : DecidableRel chunkLe := fun a b => by unfold chunkLe; infer_instance

/-- `chunks_search` from `document_chunks_repo.py` lines 85-138: same
shape as `kb_search`, over `document_chunks` joined with active
`documents`.  Note that it always filters on `category`. -/
def chunks_search (document_chunks : List ChunkRow) (documents : List DocumentRow)
    (category : String) (subcategory : Option String) (limit : Nat)
    (distance_threshold : Option ℚ) : List ChunkRow :=
  let rows := (((document_chunks.filter
      (fun c => decide (chunks_where documents category subcategory c))).insertionSort chunkLe).take limit)
  match distance_threshold with
  | none => rows
  | some t => rows.filter (fun r => decide (r.distance ≤ t))

/-! ## The unified tiered retriever

`src/services/rag/unified_retriever.py`. -/

/-- The `GENERAL_MAPPING` dict of `get_general_subcategory`, as an
association list in source order. -/
def GENERAL_MAPPING : List (String × String) :=
  [("малина ремонтантная", "малина общая"),
   ("малина летняя", "малина общая"),
   ("малина общая", "малина общая"),
   ("клубника ремонтантная", "клубника общая"),
   ("клубника летняя", "клубника общая"),
   ("клубника общая", "клубника общая"),
   ("голубика", "голубика"),
   ("смородина", "смородина"),
   ("жимолость", "жимолость"),
   ("крыжовник", "крыжовник"),
   ("ежевика", "ежевика"),
   ("общая информация", "общая информация")]

/-- `get_general_subcategory` (`unified_retriever.py` lines 24-66):
`None`/empty input maps to `None` (Python truthiness of
`if not subcategory`), otherwise `GENERAL_MAPPING.get(subcategory,
subcategory)`. -/
def get_general_subcategory : Option String → Option String
  | none => none
  | some s => if s = "" then none else some ((GENERAL_MAPPING.lookup s).getD s)

/-- One element of the list `retrieve_unified_snippets` returns.  The
Python dict has tier-dependent keys; the fields that only one source kind
carries are `Option`s here. -/
structure Snippet where
  source_type : String
  priority_level : Nat
  content : String
  distance : ℚ
  id : Nat
  category : String
  subcategory : Option String
  question : Option String
  document_id : Option Nat
  page_number : Option Nat
deriving DecidableEq

/-- `all_snippets.sort(key=lambda x: (x["priority_level"], x["distance"]))`:
the lexicographic order on the sort key. -/
def snippetKeyLe (a b : Snippet) : Prop :=
  a.priority_level < b.priority_level ∨
    (a.priority_level = b.priority_level ∧ a.distance ≤ b.distance)

instance : DecidableRel snippetKeyLe := fun a b => by
  unfold snippetKeyLe; infer_instance

instance : IsTotal Snippet snippetKeyLe where
  total a b := by
    unfold snippetKeyLe
    rcases lt_trichotomy a.priority_level b.priority_level with h | h | h
    · exact Or.inl (Or.inl h)
    · rcases le_total a.distance b.distance with h2 | h2
      · exact Or.inl (Or.inr ⟨h, h2⟩)
      · exact Or.inr (Or.inr ⟨h.symm, h2⟩)
    · exact Or.inr (Or.inl h)

instance : IsTrans Snippet snippetKeyLe where
  trans a b c hab hbc := by
    unfold snippetKeyLe at *
    rcases hab with h1 | ⟨e1, d1⟩
    · rcases hbc with h2 | ⟨e2, _⟩
      · exact Or.inl (h1.trans h2)
      · exact Or.inl (e2 ▸ h1)
    · rcases hbc with h2 | ⟨e2, d2⟩
      · exact Or.inl (e1 ▸ h2)
      · exact Or.inr ⟨e1.trans e2, d1.trans d2⟩

/-- The dict built for a Tier-1 (Q&A) hit (`unified_retriever.py`
lines 140-150). -/
def qaSnippet (r : KbRow) : Snippet :=
  { source_type := "qa", priority_level := 1, content := r.answer,
    distance := r.distance, id := r.id, category := r.category,
    subcategory := r.subcategory, question := r.question,
    document_id := none, page_number := none }

/-- The dict built for a Tier-2 (cultivar-specific document) hit
(lines 175-186). -/
def level2Snippet (r : ChunkRow) : Snippet :=
  { source_type := "document_specific", priority_level := 2,
    content := r.chunk_text, distance := r.distance, id := r.id,
    category := r.category, subcategory := r.subcategory,
    question := none, document_id := some r.document_id,
    page_number := r.page_number }

/-- The dict built for a Tier-3 (general document) hit (lines 220-231). -/
def level3Snippet (r : ChunkRow) : Snippet :=
  { source_type := "document_general", priority_level := 3,
    content := r.chunk_text, distance := r.distance, id := r.id,
    category := r.category, subcategory := r.subcategory,
    question := none, document_id := some r.document_id,
    page_number := r.page_number }

/-- The database state a retrieval call reads. -/
structure RagDb where
  knowledge_base : List KbRow
  document_chunks : List ChunkRow
  documents : List DocumentRow
deriving DecidableEq

/-- Python default `qa_distance_threshold = 0.4`. -/
def qa_distance_threshold_default : ℚ := 2/5

/-- Python default `doc_distance_threshold = 0.35` (also the default of
`kb_search` and `chunks_search`). -/
def doc_distance_threshold_default : ℚ := 7/20

/-- The Tier-1 row selection of `retrieve_unified_snippets`
(lines 117-137): the (category, subcategory) search, retried without the
subcategory filter when it produced no rows and a subcategory was given
(`if not qa_rows and subcategory is not None`). -/
def tier1_rows (knowledge_base : List KbRow) (category : String)
    (subcategory : Option String) (qa_limit : Nat)
    (qa_distance_threshold : ℚ) : List KbRow :=
  let qa_rows := kb_search knowledge_base category subcategory qa_limit
      (some qa_distance_threshold)
  if qa_rows = [] ∧ subcategory ≠ none then
    kb_search knowledge_base category none qa_limit (some qa_distance_threshold)
  else qa_rows

/-- `retrieve_unified_snippets` (`unified_retriever.py` lines 69-244).
Defaults in Python: `qa_limit=2`, `level2_limit=2`, `level3_limit=2`,
`qa_distance_threshold=0.4`, `doc_distance_threshold=0.35`.
Tier 2 runs only under `if subcategory:` (Python truthiness: skipped for
`None` and for the empty string); Tier 3 runs only under
`if general_subcategory and general_subcategory != subcategory:`.
The three per-tier `try/except` blocks catch backend errors; the searches
of this model are pure, so the except arms are not reachable here.
The final `all_snippets.sort(key=...)` is a stable sort on
`(priority_level, distance)`. -/
def retrieve_unified_snippets (db : RagDb) (category : String)
    (query_subcategory : Option String)
    (qa_limit level2_limit level3_limit : Nat)
    (qa_distance_threshold doc_distance_threshold : ℚ) : List Snippet :=
  -- LEVEL 1: Q&A pairs from knowledge_base, with the one-shot fallback
  let tier1 := (tier1_rows db.knowledge_base category query_subcategory
      qa_limit qa_distance_threshold).map qaSnippet
  -- LEVEL 2: cultivar-specific documents
  let tier2 := match query_subcategory with
    | none => []
    | some s =>
      if s = "" then []
      else (chunks_search db.document_chunks db.documents category (some s)
          level2_limit (some doc_distance_threshold)).map level2Snippet
  -- LEVEL 3: general documents
  let general_subcategory := get_general_subcategory query_subcategory
  let tier3 := match general_subcategory with
    | none => []
    | some g =>
      if g = "" then []
      else if some g ≠ query_subcategory then
        (chunks_search db.document_chunks db.documents category (some g)
            level3_limit (some doc_distance_threshold)).map level3Snippet
      else []
  ((tier1 ++ tier2 ++ tier3).insertionSort snippetKeyLe)

/-! ## Classifier: `src/services/llm/classification_llm.py`

The LLM and the database are external: an environment supplies the
outcome of each call as an `Except` value.  `Except.error` is a raised
exception (network error, timeout), `Except.ok` a returned value.
Costs are exact rationals standing in for the Python floats.
-/

/-- Worker for Python `str.replace`: replace every occurrence of `old`
(non-empty) by `new`, scanning left to right without overlap.  Structural
recursion on a fuel argument initialised to the input length. -/
def replaceSubGo (old new : List Char) : Nat → List Char → List Char
  | _, [] => []
  | 0, l => l
  | fuel + 1, c :: cs =>
    if old.isPrefixOf (c :: cs) then
      new ++ replaceSubGo old new fuel (List.drop (old.length - 1) cs)
    else c :: replaceSubGo old new fuel cs

/-- Python `s.replace(old, new)` for a non-empty `old`. -/
def pyReplace (s old new : String) : String :=
  if old.toList = [] then s
  else String.mk (replaceSubGo old.toList new.toList s.toList.length s.toList)

/-- State machine for `re.sub(r"<[^>]+>", " ", text)`: `none` = outside a
candidate tag, `some buf` = after an unmatched `<` with `buf` holding (in
reverse) the non-`>` characters read since. -/
def stripTagsGo : List Char → Option (List Char) → List Char
  | [], none => []
  | [], some buf => '<' :: buf.reverse
  | c :: cs, none =>
    if c = '<' then stripTagsGo cs (some []) else c :: stripTagsGo cs none
  | c :: cs, some buf =>
    if c = '>' then
      if buf = [] then '<' :: '>' :: stripTagsGo cs none
      else ' ' :: stripTagsGo cs none
    else stripTagsGo cs (some (c :: buf))

/-- `re.sub(r"<[^>]+>", " ", text)`. -/
def pyStripTags (s : String) : String :=
  String.mk (stripTagsGo s.toList none)

/-- `re.sub(r"\s+", " ", text)`: each maximal whitespace run becomes one
space.  The boolean records whether the previous character was
whitespace. -/
def collapseWsGo : List Char → Bool → List Char
  | [], _ => []
  | c :: cs, prevWs =>
    if isPySpace c then
      (if prevWs then collapseWsGo cs true else ' ' :: collapseWsGo cs true)
    else c :: collapseWsGo cs false

def collapseWs (s : String) : String :=
  String.mk (collapseWsGo s.toList false)

/-- The letter class of `re.sub(r"[^a-zA-Zа-яА-ЯёЁ\s\-]", " ", text)`. -/
def isRuEnLetter (c : Char) : Bool :=
  (65 ≤ c.toNat ∧ c.toNat ≤ 90) ∨ (97 ≤ c.toNat ∧ c.toNat ≤ 122) ∨
  (0x410 ≤ c.toNat ∧ c.toNat ≤ 0x42F) ∨ (0x430 ≤ c.toNat ∧ c.toNat ≤ 0x44F) ∨
  c.toNat = 0x401 ∨ c.toNat = 0x451

/-- `_cleanup_llm_answer` (`classification_llm.py` lines 28-65). -/
def _cleanup_llm_answer (raw : String) : String :=
  if raw = "" then ""
  else
    let text := pyReplace (pyReplace raw "\r" " ") "\n" " "
    let text := pyStripTags text
    let text := pyReplace text "**" " "
    let text := pyReplace text "__" " "
    let text := pyReplace text "\"" " "
    let text := pyReplace text (String.mk [Char.ofNat 39]) " "
    let text := pyReplace text "`" " "
    let text := pyReplace text "«" " "
    let text := pyReplace text "»" " "
    let text := String.mk (text.toList.takeWhile
      (fun c => ¬(c = '.' ∨ c = '!' ∨ c = '?')))
    let text := String.mk (text.toList.map
      (fun c => if isRuEnLetter c ∨ isPySpace c ∨ c = '-' then c else ' '))
    let text := collapseWs text
    let text := pyStrip text
    let text := if 200 < text.toList.length
      then pyStrip (String.mk (text.toList.take 200)) else text
    pyLower text

/-- `_keyword_fallback` (`classification_llm.py` lines 68-180): keyword
classification of the cultivar from the raw user text.  `candidates` is a
Python `set`, modelled by duplicate-free insertion into a list. -/
def _keyword_fallback (raw_text : String) : String :=
  if raw_text = "" then "не определено"
  else
    let text := pyLower raw_text
    let candidates : List String := []
    -- special strawberry terms
    let candidates := if pyIn "фриго" text ∨ pyIn "ус" text ∨ pyIn "усы" text ∨
        pyIn "усов" text ∨ pyIn "виктори" text
      then candidates.insert "клубника общая" else candidates
    -- special raspberry terms
    let candidates := if pyIn "корневая поросль" text ∨ pyIn "поросл" text
      then candidates.insert "малина общая" else candidates
    -- special blueberry terms
    let candidates := if pyIn "вересков" text
      then candidates.insert "голубика" else candidates
    -- remontant strawberry varieties
    let candidates := if ["альбион", "сан андреас", "монтерей"].any (fun s => pyIn s text)
      then candidates.insert "клубника ремонтантная" else candidates
    -- summer strawberry varieties
    let candidates := if ["полка", "вима занта", "хоней"].any (fun s => pyIn s text)
      then candidates.insert "клубника летняя" else candidates
    -- remontant raspberry varieties
    let candidates := if ["химбо топ", "полька", "джоан джей"].any (fun s => pyIn s text)
      then candidates.insert "малина ремонтантная" else candidates
    -- summer raspberry varieties
    let candidates := if ["патриция", "таруса", "гусар"].any (fun s => pyIn s text)
      then candidates.insert "малина летняя" else candidates
    -- strawberry
    let candidates := if pyIn "клубник" text ∨ pyIn "земляник" text then
        (if pyIn "летн" text ∨ pyIn "традицион" text ∨ pyIn "обычн" text ∨ pyIn "июньск" text
          then candidates.insert "клубника летняя"
         else if pyIn "ремонтант" text ∨ (pyIn "нсд" text ∨ pyIn "nsd" text) ∨ pyIn "нейтральн" text
          then candidates.insert "клубника ремонтантная"
         else candidates.insert "клубника общая")
      else candidates
    -- raspberry
    let candidates := if pyIn "малин" text then
        (if pyIn "летн" text ∨ pyIn "традицион" text ∨ pyIn "обычн" text
          then candidates.insert "малина летняя"
         else if pyIn "ремонтант" text ∨ (pyIn "нсд" text ∨ pyIn "nsd" text)
          then candidates.insert "малина ремонтантная"
         else candidates.insert "малина общая")
      else candidates
    let candidates := if pyIn "смородин" text then candidates.insert "смородина" else candidates
    let candidates := if pyIn "голубик" text then candidates.insert "голубика" else candidates
    let candidates := if pyIn "жимолост" text then candidates.insert "жимолость" else candidates
    let candidates := if pyIn "крыжовник" text then candidates.insert "крыжовник" else candidates
    let candidates := if pyIn "ежевик" text ∨ pyIn "ежив" text ∨ pyIn "ежов" text
      then candidates.insert "ежевика" else candidates
    -- type words without any culture word → general information
    let has_culture_word := ["клубник", "земляник", "малин", "смородин", "голубик",
        "жимолост", "крыжовник", "ежевик", "ежив", "ежов"].any (fun w => pyIn w text)
    if ¬has_culture_word ∧
        ["ремонтант", "нсд", "nsd", "летн", "обычн", "традицион"].any (fun w => pyIn w text)
    then "общая информация"
    else if 1 < candidates.length then "общая информация"
    else match candidates with
      | [c] => c
      | _ =>
        if pyIn "ягод" text ∨ pyIn "кустарник" text ∨ pyIn "куст" text
        then "общая информация"
        else "не определено"

/-- The OpenAI pricing table of `calculate_cost` (`core_llm.py`
lines 125-138), `(model, (input rate, output rate))` in USD per 1M
tokens, as exact rationals. -/
def pricing : List (String × ℚ × ℚ) :=
  [("gpt-4o", (5/2, 10)),
   ("gpt-4o-2024-11-20", (5/2, 10)),
   ("gpt-4o-2024-08-06", (5/2, 10)),
   ("gpt-4o-mini", (3/20, 3/5)),
   ("gpt-4o-mini-2024-07-18", (3/20, 3/5)),
   ("gpt-4.1-mini", (3/20, 3/5)),
   ("gpt-4-turbo", (10, 30)),
   ("gpt-4", (30, 60)),
   ("gpt-3.5-turbo", (1/2, 3/2))]

/-- `calculate_cost` (`core_llm.py` lines 115-145), with the
`gpt-4o-mini` fallback for unknown models.  Exact rational arithmetic
stands in for the Python float arithmetic. -/
def calculate_cost (model : String) (prompt_tokens completion_tokens : Nat) : ℚ :=
  let rates := (pricing.lookup model).getD (3/20, 3/5)
  (prompt_tokens : ℚ) / 1000000 * rates.1 + (completion_tokens : ℚ) / 1000000 * rates.2

/-- What `create_chat_completion_with_usage` resolves to on success. -/
structure LLMUsageResponse where
  content : String
  model : String
  prompt_tokens : Nat
  completion_tokens : Nat
  total_tokens : Nat
deriving DecidableEq

deriving instance DecidableEq for Except

/-- The two external calls `detect_culture_name` /
`detect_category_and_culture` make, each as an `Except`: `error` models a
raised exception (network failure, timeout), `ok` a normal return.
`kb_subcategories` is the `kb_get_distinct_subcategories` database fetch;
`llm_response` is the chat-completion call. -/
structure ClassifierEnv where
  kb_subcategories : Except String (List String)
  llm_response : Except String LLMUsageResponse
deriving DecidableEq

/-- The `mapping` dict of `detect_culture_name` (`classification_llm.py`
lines 319-393), in insertion order; the loop takes the first key that is
a substring of the normalized answer. -/
def culture_mapping : List (String × String) :=
  [("клубника ремонтантная", "клубника ремонтантная"),
   ("клубника нсд", "клубника ремонтантная"),
   ("клубника nsd", "клубника ремонтантная"),
   ("клубника нейтрального дня", "клубника ремонтантная"),
   ("клубника нейтрального света", "клубника ремонтантная"),
   ("земляника ремонтантная", "клубника ремонтантная"),
   ("земляника нсд", "клубника ремонтантная"),
   ("земляника нейтрального дня", "клубника ремонтантная"),
   ("ремонтантная клубника", "клубника ремонтантная"),
   ("ремонтантная земляника", "клубника ремонтантная"),
   ("клубника летняя", "клубника летняя"),
   ("клубника обычная", "клубника летняя"),
   ("клубника традиционная", "клубника летняя"),
   ("клубника июньская", "клубника летняя"),
   ("земляника летняя", "клубника летняя"),
   ("земляника традиционная", "клубника летняя"),
   ("июньская клубника", "клубника летняя"),
   ("клубника садовая", "клубника общая"),
   ("земляника садовая", "клубника общая"),
   ("земляника", "клубника общая"),
   ("клубника", "клубника общая"),
   ("виктория", "клубника общая"),
   ("малина ремонтантная", "малина ремонтантная"),
   ("малина нсд", "малина ремонтантная"),
   ("малина nsd", "малина ремонтантная"),
   ("ремонтантная малина", "малина ремонтантная"),
   ("малина летняя", "малина летняя"),
   ("малина обычная", "малина летняя"),
   ("малина традиционная", "малина летняя"),
   ("летняя малина", "малина летняя"),
   ("обычная малина", "малина летняя"),
   ("малина", "малина общая"),
   ("смородина", "смородина"),
   ("смородина черная", "смородина"),
   ("смородина красная", "смородина"),
   ("смородина белая", "смородина"),
   ("чёрная смородина", "смородина"),
   ("красная смородина", "смородина"),
   ("белая смородина", "смородина"),
   ("черная смородина", "смородина"),
   ("черная", "смородина"),
   ("красная", "смородина"),
   ("белая", "смородина"),
   ("голубика", "голубика"),
   ("жимолость", "жимолость"),
   ("жимолость съедобная", "жимолость"),
   ("крыжовник", "крыжовник"),
   ("ежевика", "ежевика"),
   ("общая информация", "общая информация"),
   ("не определено", "не определено")]

/-- The `for key, value in mapping.items(): if key in normalized: ...
break` loop of `detect_culture_name`. -/
def cultureMapApply (normalized : String) : String :=
  match culture_mapping.find? (fun kv => pyIn kv.1 normalized) with
  | some kv => kv.2
  | none => normalized

/-- `detect_culture_name` (`classification_llm.py` lines 183-442) as a
function of its two external calls.  The `kb_get_distinct_subcategories`
fetch happens before the `try` block, so its failure propagates
(`Except.error`); everything after it sits inside
`try ... except Exception`, whose handler returns
`(_keyword_fallback(text), 0.0, 0)`.  The fetched culture list only feeds
the prompt, never the result, so its `ok` payload is unused here. -/
def detect_culture_name (env : ClassifierEnv) (text : String) :
    Except String (String × ℚ × Nat) :=
  let raw_text := text
  match env.kb_subcategories with
  | .error e => .error e
  | .ok _db_cultures =>
    match env.llm_response with
    | .error _ => .ok (_keyword_fallback raw_text, 0, 0)
    | .ok response =>
      let cost_usd := calculate_cost response.model response.prompt_tokens
        response.completion_tokens
      let tokens := response.total_tokens
      let raw := pyStrip response.content
      if raw = "" then .ok (_keyword_fallback raw_text, cost_usd, tokens)
      else
        let normalized := _cleanup_llm_answer raw
        if normalized = "общая информация" ∨ normalized = "не определено" then
          let keyword_culture := _keyword_fallback raw_text
          if keyword_culture ≠ "не определено" ∧ keyword_culture ≠ "общая информация"
          then .ok (keyword_culture, cost_usd, tokens)
          else .ok (normalized, cost_usd, tokens)
        else
          let culture := cultureMapApply normalized
          let culture :=
            if culture = "общая информация" ∨ culture = "не определено" then
              (let keyword_culture := _keyword_fallback raw_text
               if keyword_culture ≠ "не определено" ∧ keyword_culture ≠ "общая информация"
               then keyword_culture else culture)
            else culture
          let words := pySplitWs culture
          if 0 < words.length ∧ words.length ≤ 4 ∧
              culture ≠ "общая информация" ∧ culture ≠ "не определено" then
            .ok (pyStrip (pyJoinSpace words), cost_usd, tokens)
          else
            .ok (_keyword_fallback raw_text, cost_usd, tokens)

def nutrition_keywords : List String :=
  ["подкорм", "питан", "удобрен", "азот", "калий", "фосфор",
   "npk", "макроэлемент", "микроэлемент", "комплексн",
   "минеральн", "органик", "компост", "навоз", "перегной",
   "подкормить", "кормить", "кормл", "внос"]

def protection_keywords : List String :=
  ["вредител", "болез", "тля", "паутин", "клещ", "долгоносик",
   "гриб", "пятн", "мучнист", "серая гниль", "фитофтор",
   "обработ", "опрыск", "защит", "борьб", "лечен", "инсектицид",
   "фунгицид", "препарат"]

def planting_keywords : List String :=
  ["посад", "пересад", "саж", "высад", "полив", "мульч",
   "обрез", "формиров", "укрыт", "зим", "уход", "агротехник",
   "схем", "расстоян", "глубин", "когда сажать", "как сажать",
   "размножен", "черенк", "делен"]

def soil_keywords : List String :=
  ["почв", "грунт", "кислот", "ph", "известков", "раскисл",
   "структур почв", "дренаж", "песок", "торф", "глин",
   "плодородие", "улучш", "подготовк почв"]

def variety_keywords : List String :=
  ["сорт", "какой лучше", "что выбрать", "порекоменду",
   "посовету", "для региона", "для климата", "морозостойк",
   "зимостойк", "урожайн", "вкус"]

/-- `_keyword_category_fallback` (`classification_llm.py`
lines 445-505). -/
def _keyword_category_fallback (raw_text : String) : String :=
  if raw_text = "" then "не определена"
  else
    let text := pyLower raw_text
    if nutrition_keywords.any (fun kw => pyIn kw text) then "питание растений"
    else if protection_keywords.any (fun kw => pyIn kw text) then "защита растений"
    else if planting_keywords.any (fun kw => pyIn kw text) then "посадка и уход"
    else if soil_keywords.any (fun kw => pyIn kw text) then "улучшение почвы"
    else if variety_keywords.any (fun kw => pyIn kw text) then "подбор сорта"
    else "не определена"

/-- The `category_mapping` dict of `detect_category_and_culture`
(lines 646-654); unlike the culture mapping it is consulted by exact
lookup (`dict.get`). -/
def category_mapping : List (String × String) :=
  [("питание растений", "питание растений"),
   ("посадка и уход", "посадка и уход"),
   ("защита растений", "защита растений"),
   ("улучшение почвы", "улучшение почвы"),
   ("подбор сорта", "подбор сорта"),
   ("подбор сортов", "подбор сорта"),
   ("другая тема", "другая тема")]

/-- The `culture_mapping` dict inside `detect_category_and_culture`
(lines 662-681), in insertion order, searched by substring with
`break`. -/
def culture_mapping_cc : List (String × String) :=
  [("клубника ремонтантная", "клубника ремонтантная"),
   ("клубника летняя", "клубника летняя"),
   ("клубника обычная", "клубника летняя"),
   ("клубника общая", "клубника общая"),
   ("клубника", "клубника общая"),
   ("земляника", "клубника общая"),
   ("малина ремонтантная", "малина ремонтантная"),
   ("малина летняя", "малина летняя"),
   ("малина обычная", "малина летняя"),
   ("малина общая", "малина общая"),
   ("малина", "малина общая"),
   ("смородина", "смородина"),
   ("голубика", "голубика"),
   ("жимолость", "жимолость"),
   ("крыжовник", "крыжовник"),
   ("ежевика", "ежевика"),
   ("общая информация", "общая информация"),
   ("не определено", "не определено")]

/-- The markdown-fence stripping of `detect_category_and_culture`
(lines 634-639): `json_str.split("```json")[1].split("```")[0].strip()`
and its plain-fence variant. -/
def stripJsonFence (raw : String) : String :=
  if pyIn "```json" raw then
    pyStrip (((pySplitOn "```" (((pySplitOn "```json" raw).getD 1 "")))).getD 0 "")
  else if pyIn "```" raw then
    pyStrip (((pySplitOn "```" (((pySplitOn "```" raw).getD 1 "")))).getD 0 "")
  else raw

/-- `detect_category_and_culture` (`classification_llm.py`
lines 508-729).  `jsonLoads` abstracts the Python `json.loads` call
combined with `data.get("category", "")` / `data.get("culture", "")`:
`none` models `json.JSONDecodeError`, `some (category, culture)` a parsed
object with those (string) field values.  As in `detect_culture_name`,
the culture-list fetch runs before the `try` block and its failure
propagates; every other failure degrades to the keyword fallbacks. -/
def detect_category_and_culture (env : ClassifierEnv)
    (jsonLoads : String → Option (String × String)) (text : String) :
    Except String (String × String × ℚ × Nat) :=
  let raw_text := text
  match env.kb_subcategories with
  | .error e => .error e
  | .ok _db_cultures =>
    match env.llm_response with
    | .error _ =>
      .ok (_keyword_category_fallback raw_text, _keyword_fallback raw_text, 0, 0)
    | .ok response =>
      let cost_usd := calculate_cost response.model response.prompt_tokens
        response.completion_tokens
      let tokens := response.total_tokens
      let raw := pyStrip response.content
      if raw = "" then
        .ok (_keyword_category_fallback raw_text, _keyword_fallback raw_text,
          cost_usd, tokens)
      else
        let json_str := stripJsonFence raw
        match jsonLoads json_str with
        | none =>
          .ok (_keyword_category_fallback raw_text, _keyword_fallback raw_text,
            cost_usd, tokens)
        | some (category_field, culture_field) =>
          let category_raw := pyLower (pyStrip category_field)
          let culture_raw := pyLower (pyStrip culture_field)
          let category := (category_mapping.lookup category_raw).getD "не определена"
          let culture := _cleanup_llm_answer culture_raw
          let culture :=
            match culture_mapping_cc.find? (fun kv => pyIn kv.1 culture) with
            | some kv => kv.2
            | none => culture
          let keyword_culture := _keyword_fallback raw_text
          let culture :=
            if culture = "общая информация" ∨ culture = "не определено" ∨ culture = "" then
              (if keyword_culture ≠ "не определено" ∧ keyword_culture ≠ "общая информация"
               then keyword_culture else culture)
            else if keyword_culture ≠ "не определено" ∧
                keyword_culture ≠ "общая информация" ∧ keyword_culture ≠ culture
              then keyword_culture
            else culture
          .ok (category, culture, cost_usd, tokens)

/-- `compare_topics_for_change` (`classification_llm.py` lines 732-842)
as a function of the generation call.  The whole effectful body sits in
one `try`, whose `except Exception` arm returns `("unclear", 0.0, 0)`, so
the function always returns a triple — the model is total.
`old_category` is received and ignored, as in the source. -/
def compare_topics_for_change (llm : Except String LLMUsageResponse)
    (old_category old_culture new_question context_messages : String) :
    String × ℚ × Nat :=
  match llm with
  | .error _ => ("unclear", 0, 0)
  | .ok response =>
    let cost_usd := calculate_cost response.model response.prompt_tokens
      response.completion_tokens
    let tokens := response.total_tokens
    let result := pyLower (pyStrip response.content)
    let decision :=
      if pyIn "same" result ∨ result = "same_topic" then "same_topic"
      else if pyIn "clear" result ∨ result = "clear_change" then "clear_change"
      else "unclear"
    (decision, cost_usd, tokens)

/-! ## Topics repository: `src/services/db/topics_repo.py`

A `topics` row; the three quota operations act on the
`follow_up_questions_left` column (SQL `integer`, hence `Int`).
-/

structure TopicRow where
  id : Nat
  user_id : Nat
  session_id : String
  status : String
  culture : Option String
  category : Option String
  follow_up_questions_left : Int
deriving DecidableEq

/-- The `INSERT INTO topics (user_id, session_id, status,
follow_up_questions_left) VALUES ($1, $2, 'open', 3)` of
`get_or_create_open_topic` (`topics_repo.py` lines 57-65): a newly
created topic is open with quota 3 and no culture or category yet. -/
def insert_new_topic (id user_id : Nat) (session_id : String) : TopicRow :=
  { id := id, user_id := user_id, session_id := session_id,
    status := "open", culture := none, category := none,
    follow_up_questions_left := 3 }

/-- `decrement_follow_up_questions` (`topics_repo.py` lines 186-200):
`SET follow_up_questions_left = GREATEST(follow_up_questions_left - 1, 0)`. -/
def decrement_follow_up_questions (t : TopicRow) : TopicRow :=
  { t with follow_up_questions_left := max (t.follow_up_questions_left - 1) 0 }

/-- `reset_follow_up_questions` (`topics_repo.py` lines 203-216):
`SET follow_up_questions_left = 3`. -/
def reset_follow_up_questions (t : TopicRow) : TopicRow :=
  { t with follow_up_questions_left := 3 }

/-! ## Conversation handlers

`src/handlers/consultation/pitanie_rastenii.py` and
`src/handlers/consultation/entry.py`.  Python is dynamically typed, and
claim C9 is precisely about a value of the wrong dynamic type being
persisted, so the values flowing into `set_topic_culture` are modelled by
a small dynamic-value type `PyVal`.
-/

/-- A Python runtime value (the fragment of Python's value space these
handlers produce): a string, a number, or a tuple. -/
inductive PyVal where
  | str (s : String)
  | num (q : ℚ)
  | tup (l : List PyVal)

/-- Python truthiness for the values above: empty string, zero and the
empty tuple are falsy. -/
def pyTruthy : PyVal → Bool
  | .str s => decide (s ≠ "")
  | .num q => decide (q ≠ 0)
  | .tup l => !l.isEmpty

/-- Python `v != s` for a string literal `s` on the right: string
comparison when `v` is a string, `True` for every other runtime type. -/
def pyNeStr (v : PyVal) (s : String) : Bool :=
  match v with
  | .str t => decide (t ≠ s)
  | _ => true

/-- The Python *value* `detect_culture_name` returns: the 3-tuple
`(culture, cost_usd, tokens)` built by each of its `return`
statements. -/
def detect_culture_name_value (env : ClassifierEnv) (text : String) :
    Except String PyVal :=
  (detect_culture_name env text).map
    (fun r => PyVal.tup [PyVal.str r.1, PyVal.num r.2.1, PyVal.num (r.2.2 : ℚ)])

/-- `handle_nutrition_root`, lines 290-302 of `pitanie_rastenii.py`: on
the first message of a topic, `detected_culture = await
detect_culture_name(root_question)` and then

    if detected_culture and detected_culture != "не определено":
        await set_topic_culture(topic_id, detected_culture)
    else:
        await set_topic_culture(topic_id, "не определено")

This function is the value passed to `set_topic_culture` (also kept as
the in-memory `culture`).  The comparison `!=` between a tuple and a
string is `True` in Python, matching `≠` on distinct `PyVal`
constructors. -/
def handle_nutrition_root_culture_update (detected_culture : PyVal) : PyVal :=
  if pyTruthy detected_culture && pyNeStr detected_culture "не определено"
  then detected_culture
  else PyVal.str "не определено"

/-- `handle_variety_clarification` in `entry.py`, lines 507-527: the
`new_culture` computed from the user's answer (already lowercased at
line 489) and the saved culture, and passed to `set_topic_culture`.  When
the keyword match fails, `new_culture` is the raw return value of
`detect_culture_name` — the 3-tuple. -/
def entry_variety_new_culture (old_culture : String)
    (variety_answer : String) (classifier_value : PyVal) : PyVal :=
  if pyIn "ремонтант" variety_answer ∨ pyIn "нсд" variety_answer then
    (if old_culture = "клубника общая" then PyVal.str "клубника ремонтантная"
     else PyVal.str "малина ремонтантная")
  else if pyIn "летн" variety_answer ∨ pyIn "обычн" variety_answer ∨
      pyIn "традицион" variety_answer ∨ pyIn "июньск" variety_answer then
    (if old_culture = "клубника общая" then PyVal.str "клубника летняя"
     else PyVal.str "малина летняя")
  else classifier_value

/-- The in-memory `CONSULTATION_CONTEXT[user.id]` dict, with the keys the
clarification handlers read (`ctx.get(...)` with its defaults).  `none`
in `user_id`/`topic_id` models a missing key. -/
structure ConsultationCtx where
  root_question : String
  culture : Option String
  user_id : Option Nat
  topic_id : Option Nat
  session_id : String
  telegram_user_id : Option Nat
deriving DecidableEq

/-- Python falsiness of an optional integer: missing (`None`) or `0`. -/
def pyFalsyNat (o : Option Nat) : Bool :=
  o = none ∨ o = some 0

/-- Observable effect of a handler run that returned early: the texts
sent with `message.answer`, the user's `CONSULTATION_STATE` entry
afterwards (`none` = no entry, i.e. idle), and whether the
`CONSULTATION_CONTEXT` entry was removed. -/
structure HandlerEffects where
  replies : List String
  state_after : Option String
  context_removed : Bool
deriving DecidableEq

/-- Result of a handler prefix: either it finished early with the given
effects, or it proceeds to the LLM/retrieval part with a validated
context. -/
inductive HandlerStep where
  | finished (eff : HandlerEffects)
  | proceed (c : ConsultationCtx)
deriving DecidableEq

/-- `handle_nutrition_clarification` (`pitanie_rastenii.py`
lines 429-457), entered with `CONSULTATION_STATE` =
`waiting_nutrition_clarification`, up to the early-exit guards:

    ctx = CONSULTATION_CONTEXT.get(user.id)
    if not ctx:
        CONSULTATION_STATE.pop(user.id, None)
        return                      # no message is sent
    ...
    if not all([user_id, topic_id, root_question]):
        CONSULTATION_STATE.pop(user.id, None)
        CONSULTATION_CONTEXT.pop(user.id, None)
        return                      # no message is sent
-/
def handle_nutrition_clarification_prefix (ctx : Option ConsultationCtx) :
    HandlerStep :=
  match ctx with
  | none => .finished { replies := [], state_after := none, context_removed := false }
  | some c =>
    if pyFalsyNat c.user_id ∨ pyFalsyNat c.topic_id ∨ c.root_question = "" then
      .finished { replies := [], state_after := none, context_removed := true }
    else .proceed c

/-- `handle_variety_clarification` in `pitanie_rastenii.py`
(lines 567-596), entered with state `waiting_variety_clarification`
(this router is registered before `entry.py`, so it is the handler that
fires for that state): same early-exit shape as the nutrition
clarification handler, with `culture` in place of `root_question` in the
validity check. -/
def nutrition_variety_clarification_prefix (ctx : Option ConsultationCtx) :
    HandlerStep :=
  match ctx with
  | none => .finished { replies := [], state_after := none, context_removed := false }
  | some c =>
    if pyFalsyNat c.user_id ∨ pyFalsyNat c.topic_id ∨ c.culture.getD "" = "" then
      .finished { replies := [], state_after := none, context_removed := true }
    else .proceed c

/-- `handle_variety_clarification` in `entry.py` (lines 477-499), up to
its missing-context guard:

    context = CONSULTATION_CONTEXT.get(telegram_user_id, {})
    if not context:
        await message.answer("Произошла ошибка. Попробуйте задать вопрос заново.")
        return                      # the state entry is NOT removed

`state0` is the user's `CONSULTATION_STATE` entry on entry
(`waiting_variety_clarification` when this handler fires). -/
def entry_variety_clarification_prefix (state0 : Option String)
    (ctx : Option ConsultationCtx) : HandlerStep :=
  match ctx with
  | none => .finished
      { replies := ["Произошла ошибка. Попробуйте задать вопрос заново."],
        state_after := state0, context_removed := false }
  | some c => .proceed c

/-! ## Concrete example inputs

Small database states and rows used to instantiate the theorems below on
concrete inputs. -/

/-- A curated Q&A row matching category and cultivar at distance 0. -/
def exKb : KbRow :=
  { id := 1, category := "питание растений",
    subcategory := some "малина ремонтантная", question := none,
    answer := "ответ", is_active := true, distance := 0 }

/-- A cultivar-specific document chunk at distance 0. -/
def exChunk : ChunkRow :=
  { id := 2, document_id := 7, chunk_text := "текст", page_number := none,
    category := "питание растений",
    subcategory := some "малина ремонтантная", is_active := true,
    distance := 0 }

def exDoc : DocumentRow := { id := 7, is_active := true }

def exDb : RagDb :=
  { knowledge_base := [exKb], document_chunks := [exChunk],
    documents := [exDoc] }

/-- A Q&A row whose distance is exactly equal to a threshold of 1. -/
def exKb2 : KbRow :=
  { id := 1, category := "питание растений", subcategory := none,
    question := none, answer := "ответ", is_active := true, distance := 1 }

/-- A Q&A row with no cultivar tag: invisible to a cultivar-restricted
Tier-1 search, found by the category-only retry. -/
def exKb6 : KbRow :=
  { id := 3, category := "питание растений", subcategory := none,
    question := none, answer := "общий ответ", is_active := true,
    distance := 0 }

/-- A chunk whose cultivar tag matches the query but whose category does
not. -/
def exChunk7 : ChunkRow :=
  { id := 3, document_id := 7, chunk_text := "текст", page_number := none,
    category := "защита растений",
    subcategory := some "малина ремонтантная", is_active := true,
    distance := 0 }

/-- An environment where the culture-list DB fetch fails. -/
def envDbDown : ClassifierEnv :=
  { kb_subcategories := .error "db connection failed",
    llm_response := .ok ⟨"голубика", "gpt-4o-mini", 10, 5, 15⟩ }

/-- An environment where the DB fetch succeeds and the LLM call raises. -/
def envLlmDown : ClassifierEnv :=
  { kb_subcategories := .ok [], llm_response := .error "timeout" }

/-! ## Helper lemmas -/

/-- Membership in a search result implies the SQL filter held (kb). -/
theorem kb_search_mem_where {kb : List KbRow} {cat : String}
    {sub : Option String} {lim : Nat} {t : Option ℚ} {r : KbRow}
    (h : r ∈ kb_search kb cat sub lim t) : kb_where cat sub r := by
  unfold kb_search at h
  have hmem : r ∈ kb.filter (fun x => decide (kb_where cat sub x)) := by
    cases t with
    | none =>
      exact (List.mem_insertionSort _).mp (List.take_subset _ _ h)
    | some t0 =>
      exact (List.mem_insertionSort _).mp
        (List.take_subset _ _ (List.mem_filter.mp h).1)
  exact of_decide_eq_true (List.mem_filter.mp hmem).2

/-- Membership in a search result implies the SQL filter held (chunks). -/
theorem chunks_search_mem_where {chunks : List ChunkRow}
    {docs : List DocumentRow} {cat : String} {sub : Option String}
    {lim : Nat} {t : Option ℚ} {c : ChunkRow}
    (h : c ∈ chunks_search chunks docs cat sub lim t) :
    chunks_where docs cat sub c := by
  unfold chunks_search at h
  have hmem : c ∈ chunks.filter (fun x => decide (chunks_where docs cat sub x)) := by
    cases t with
    | none =>
      exact (List.mem_insertionSort _).mp (List.take_subset _ _ h)
    | some t0 =>
      exact (List.mem_insertionSort _).mp
        (List.take_subset _ _ (List.mem_filter.mp h).1)
  exact of_decide_eq_true (List.mem_filter.mp hmem).2

/-- Tier-1 snippets all carry `source_type = "qa"`, so the qa filter
keeps them all. -/
theorem filter_qa_map_qaSnippet (l : List KbRow) :
    (l.map qaSnippet).filter (fun x => x.source_type == "qa") =
      l.map qaSnippet := by
  induction l with
  | nil => rfl
  | cons a l ih => simp [qaSnippet, List.filter_cons, ih]

theorem filter_qa_map_level2 (l : List ChunkRow) :
    (l.map level2Snippet).filter (fun x => x.source_type == "qa") = [] := by
  induction l with
  | nil => rfl
  | cons a l ih => simp [level2Snippet, List.filter_cons, ih]

theorem filter_qa_map_level3 (l : List ChunkRow) :
    (l.map level3Snippet).filter (fun x => x.source_type == "qa") = [] := by
  induction l with
  | nil => rfl
  | cons a l ih => simp [level3Snippet, List.filter_cons, ih]

/-! ## Claim C10 -/

/-- C10: for every input embedding (a list of any length, or `None`),
`_normalize_embedding` returns a list of length exactly 1536: longer
vectors are truncated, shorter ones zero-padded on the right, and `None`
yields the all-zero vector of length 1536. -/
theorem C10_normalize_embedding (e : Option (List ℚ)) :
    (_normalize_embedding e).length = KB_VECTOR_DIM ∧
    KB_VECTOR_DIM = 1536 ∧
    (e = none → _normalize_embedding e = List.replicate KB_VECTOR_DIM 0) ∧
    (∀ l, e = some l → KB_VECTOR_DIM < l.length →
      _normalize_embedding e = l.take KB_VECTOR_DIM) ∧
    (∀ l, e = some l → l.length ≤ KB_VECTOR_DIM →
      _normalize_embedding e = l ++ List.replicate (KB_VECTOR_DIM - l.length) 0) := by
  refine ⟨?_, rfl, ?_, ?_, ?_⟩
  · cases e with
    | none => simp [_normalize_embedding]
    | some l =>
      simp only [_normalize_embedding]
      split_ifs with h1 h2
      · exact h1
      · simp only [List.length_take]; omega
      · simp only [List.length_append, List.length_replicate]; omega
  · rintro rfl; rfl
  · rintro l rfl h
    simp only [_normalize_embedding]
    split_ifs with h1
    · omega
    · rfl
  · rintro l rfl h
    simp only [_normalize_embedding]
    split_ifs with h1 h2
    · simp [h1]
    · omega
    · rfl

/-- Witness for C10 at concrete inputs: a vector of length 2000 is
truncated to its first 1536 entries, and `None` gives the zero vector. -/
theorem C10_normalize_embedding_witness :
    _normalize_embedding (some (List.replicate 2000 (1 : ℚ))) =
      (List.replicate 2000 (1 : ℚ)).take KB_VECTOR_DIM ∧
    _normalize_embedding none = List.replicate KB_VECTOR_DIM 0 := by
  constructor
  · exact (C10_normalize_embedding (some (List.replicate 2000 (1 : ℚ)))).2.2.2.1
      (List.replicate 2000 (1 : ℚ)) rfl
      (by simp only [List.length_replicate, KB_VECTOR_DIM]; omega)
  · exact (C10_normalize_embedding none).2.2.1 rfl

/-! ## Claim C4 -/

/-- C4: `follow_up_questions_left` always lies in [0, 3]: a newly created
topic starts at 3, the decrement lowers the quota by exactly 1 but never
below 0 (hence it is non-increasing and never negative), and the reset
restores exactly 3. -/
theorem C4_follow_up_quota (id user_id : Nat) (session_id : String)
    (t : TopicRow) (h0 : 0 ≤ t.follow_up_questions_left)
    (h3 : t.follow_up_questions_left ≤ 3) :
    (insert_new_topic id user_id session_id).follow_up_questions_left = 3 ∧
    0 ≤ (decrement_follow_up_questions t).follow_up_questions_left ∧
    (decrement_follow_up_questions t).follow_up_questions_left ≤ 3 ∧
    (decrement_follow_up_questions t).follow_up_questions_left ≤
      t.follow_up_questions_left ∧
    (1 ≤ t.follow_up_questions_left →
      (decrement_follow_up_questions t).follow_up_questions_left =
        t.follow_up_questions_left - 1) ∧
    (t.follow_up_questions_left = 0 →
      (decrement_follow_up_questions t).follow_up_questions_left = 0) ∧
    (reset_follow_up_questions t).follow_up_questions_left = 3 := by
  unfold insert_new_topic decrement_follow_up_questions reset_follow_up_questions
  refine ⟨rfl, ?_, ?_, ?_, ?_, ?_, rfl⟩ <;> simp only [] <;> omega

/-- Witness for C4 at a concrete topic with quota 2: decrement gives 1,
and from quota 0 decrement stays at 0. -/
theorem C4_follow_up_quota_witness :
    (decrement_follow_up_questions
      ⟨1, 1, "tg:1", "open", none, none, 2⟩).follow_up_questions_left =
      (2 : Int) - 1 ∧
    (decrement_follow_up_questions
      ⟨1, 1, "tg:1", "open", none, none, 0⟩).follow_up_questions_left = 0 := by
  constructor
  · exact (C4_follow_up_quota 1 1 "tg:1" ⟨1, 1, "tg:1", "open", none, none, 2⟩
      (by decide) (by decide)).2.2.2.2.1 (by decide)
  · exact (C4_follow_up_quota 1 1 "tg:1" ⟨1, 1, "tg:1", "open", none, none, 0⟩
      (by decide) (by decide)).2.2.2.2.2.1 (by decide)

/-! ## Claim C1 -/

/-- C1: in every list returned by `retrieve_unified_snippets`, tier
number is a hard partition of the ranking — for any two positions
`i < j`, the earlier fragment's tier is at most the later one's
(so every Tier-1 fragment precedes every Tier-2/3 fragment and every
Tier-2 precedes every Tier-3, regardless of distances), and fragments of
equal tier appear in non-decreasing distance order. -/
theorem C1_tier_partition (db : RagDb) (category : String)
    (sub : Option String) (qa_limit level2_limit level3_limit : Nat)
    (qa_t doc_t : ℚ) (i j : Nat)
    (hi : i < (retrieve_unified_snippets db category sub qa_limit
      level2_limit level3_limit qa_t doc_t).length)
    (hj : j < (retrieve_unified_snippets db category sub qa_limit
      level2_limit level3_limit qa_t doc_t).length)
    (hij : i < j) :
    ((retrieve_unified_snippets db category sub qa_limit level2_limit
        level3_limit qa_t doc_t).get ⟨i, hi⟩).priority_level ≤
      ((retrieve_unified_snippets db category sub qa_limit level2_limit
        level3_limit qa_t doc_t).get ⟨j, hj⟩).priority_level ∧
    (((retrieve_unified_snippets db category sub qa_limit level2_limit
        level3_limit qa_t doc_t).get ⟨i, hi⟩).priority_level =
      ((retrieve_unified_snippets db category sub qa_limit level2_limit
        level3_limit qa_t doc_t).get ⟨j, hj⟩).priority_level →
      ((retrieve_unified_snippets db category sub qa_limit level2_limit
        level3_limit qa_t doc_t).get ⟨i, hi⟩).distance ≤
        ((retrieve_unified_snippets db category sub qa_limit level2_limit
          level3_limit qa_t doc_t).get ⟨j, hj⟩).distance) := by
  have hp : (retrieve_unified_snippets db category sub qa_limit
      level2_limit level3_limit qa_t doc_t).Pairwise snippetKeyLe := by
    unfold retrieve_unified_snippets
    exact List.sorted_insertionSort snippetKeyLe _
  have h := List.pairwise_iff_getElem.mp hp i j hi hj hij
  simp only [List.get_eq_getElem]
  unfold snippetKeyLe at h
  rcases h with h | ⟨e, d⟩
  · exact ⟨Nat.le_of_lt h, fun he => absurd he (Nat.ne_of_lt h)⟩
  · exact ⟨Nat.le_of_eq e, fun _ => d⟩

/-- Witness for C1 on a concrete database: the result has a Tier-1 hit
before a Tier-2 hit, and the theorem instantiates at positions 0 < 1. -/
theorem C1_tier_partition_witness :
    (retrieve_unified_snippets exDb "питание растений"
      (some "малина ремонтантная") 2 2 2 1 1).length = 2 ∧
    ((retrieve_unified_snippets exDb "питание растений"
      (some "малина ремонтантная") 2 2 2 1 1).get
        ⟨0, by decide⟩).priority_level ≤
      ((retrieve_unified_snippets exDb "питание растений"
        (some "малина ремонтантная") 2 2 2 1 1).get
          ⟨1, by decide⟩).priority_level := by
  refine ⟨by decide, ?_⟩
  exact (C1_tier_partition exDb "питание растений" (some "малина ремонтантная")
    2 2 2 1 1 0 1 (by decide) (by decide) (by decide)).1

/-! ## Claim C2 -/

/-- Counterexample to C2 as stated.  The claim says a hit whose distance
*equals* the threshold is discarded and that the Tier-1 threshold is
stricter than the Tier-2/3 threshold.  Both fail: `kb_search` keeps a row
whose distance is exactly the threshold (`distance <= distance_threshold`
in `kb_repo.py` line 128), and the Tier-1 default threshold 0.4 is
*larger* (looser) than the Tier-2/3 default 0.35. -/
theorem C2_counterexample :
    exKb2.distance = 1 ∧
    kb_search [exKb2] "питание растений" none 3 (some 1) = [exKb2] ∧
    qa_distance_threshold_default > doc_distance_threshold_default := by
  refine ⟨rfl, by decide, ?_⟩
  unfold qa_distance_threshold_default doc_distance_threshold_default
  norm_num

/-- C2 amended: in both repositories a hit returned by the limited
similarity search is kept exactly when its distance is *at most* the
tier's threshold (only hits strictly above the threshold are discarded),
and the Tier-1 default threshold (0.4) is looser, not stricter, than the
Tier-2/3 default (0.35). -/
theorem C2_threshold_filter (kb : List KbRow) (chunks : List ChunkRow)
    (docs : List DocumentRow) (cat : String) (sub : Option String)
    (lim : Nat) (t : ℚ) (r : KbRow) (c : ChunkRow) :
    (r ∈ kb_search kb cat sub lim (some t) ↔
      r ∈ ((kb.filter (fun x => decide (kb_where cat sub x))).insertionSort
        kbLe).take lim ∧ r.distance ≤ t) ∧
    (c ∈ chunks_search chunks docs cat sub lim (some t) ↔
      c ∈ ((chunks.filter (fun x => decide (chunks_where docs cat sub
        x))).insertionSort chunkLe).take lim ∧ c.distance ≤ t) ∧
    doc_distance_threshold_default < qa_distance_threshold_default := by
  refine ⟨?_, ?_, ?_⟩
  · unfold kb_search
    simp [List.mem_filter]
  · unfold chunks_search
    simp [List.mem_filter]
  · unfold qa_distance_threshold_default doc_distance_threshold_default
    norm_num

/-! ## Claim C6 -/

/-- C6: when the Tier-1 search restricted to (category, cultivar) returns
zero rows and a cultivar was specified, `retrieve_unified_snippets` reruns
the Tier-1 search restricted to the category only; when the first search
returned at least one row, no retry happens.  The Tier-1 fragments of the
returned list are exactly (up to the final ranking permutation) the
selected Q&A rows. -/
theorem C6_tier1_retry (db : RagDb) (category s : String)
    (qa_limit level2_limit level3_limit : Nat) (qa_t doc_t : ℚ) :
    (kb_search db.knowledge_base category (some s) qa_limit (some qa_t) = [] →
      tier1_rows db.knowledge_base category (some s) qa_limit qa_t =
        kb_search db.knowledge_base category none qa_limit (some qa_t)) ∧
    (kb_search db.knowledge_base category (some s) qa_limit (some qa_t) ≠ [] →
      tier1_rows db.knowledge_base category (some s) qa_limit qa_t =
        kb_search db.knowledge_base category (some s) qa_limit (some qa_t)) ∧
    ((retrieve_unified_snippets db category (some s) qa_limit level2_limit
        level3_limit qa_t doc_t).filter
      (fun x => x.source_type == "qa")).Perm
      ((tier1_rows db.knowledge_base category (some s) qa_limit qa_t).map
        qaSnippet) := by
  refine ⟨?_, ?_, ?_⟩
  · intro h
    unfold tier1_rows
    rw [if_pos ⟨h, by simp⟩]
  · intro h
    unfold tier1_rows
    rw [if_neg]
    intro hc
    exact h hc.1
  · unfold retrieve_unified_snippets
    have hperm := (List.perm_insertionSort snippetKeyLe
      (((tier1_rows db.knowledge_base category (some s) qa_limit qa_t).map
          qaSnippet) ++
        ((match (some s : Option String) with
          | none => ([] : List Snippet)
          | some s0 =>
            if s0 = "" then []
            else (chunks_search db.document_chunks db.documents category
                (some s0) level2_limit (some doc_t)).map level2Snippet)) ++
        ((match get_general_subcategory (some s) with
          | none => ([] : List Snippet)
          | some g =>
            if g = "" then []
            else if some g ≠ (some s : Option String) then
              (chunks_search db.document_chunks db.documents category
                  (some g) level3_limit (some doc_t)).map level3Snippet
            else [])))).filter (fun (x : Snippet) => x.source_type == "qa")
    refine hperm.trans ?_
    rw [List.filter_append, List.filter_append]
    rw [filter_qa_map_qaSnippet]
    have h2 : ((match (some s : Option String) with
        | none => ([] : List Snippet)
        | some s0 =>
          if s0 = "" then []
          else (chunks_search db.document_chunks db.documents category
              (some s0) level2_limit (some doc_t)).map level2Snippet)).filter
        (fun (x : Snippet) => x.source_type == "qa") = [] := by
      simp only
      split_ifs with hs
      · rfl
      · exact filter_qa_map_level2 _
    have h3 : ((match get_general_subcategory (some s) with
        | none => ([] : List Snippet)
        | some g =>
          if g = "" then []
          else if some g ≠ (some s : Option String) then
            (chunks_search db.document_chunks db.documents category
                (some g) level3_limit (some doc_t)).map level3Snippet
          else [])).filter (fun (x : Snippet) => x.source_type == "qa") = [] := by
      cases hg : get_general_subcategory (some s) with
      | none => rfl
      | some g =>
        simp only
        split_ifs with hg1 hg2
        · rfl
        · exact filter_qa_map_level3 _
        · rfl
    rw [h2, h3, List.append_nil, List.append_nil]

/-- Witness for C6: a knowledge base whose only row has no cultivar tag.
The (category, cultivar)-restricted search finds nothing, so the Tier-1
selection equals the category-only retry. -/
theorem C6_tier1_retry_witness :
    kb_search [exKb6] "питание растений" (some "голубика") 2 (some 1) = [] ∧
    tier1_rows [exKb6] "питание растений" (some "голубика") 2 1 =
      kb_search [exKb6] "питание растений" none 2 (some 1) := by
  refine ⟨by decide, ?_⟩
  exact (C6_tier1_retry ⟨[exKb6], [], []⟩ "питание растений" "голубика"
    2 2 2 1 1).1 (by decide)

/-! ## Claim C7 -/

/-- Counterexample to C7 as stated.  The claim says the Tier-2 document
search is restricted by the cultivar label only, with no category filter.
But `chunks_search` always filters `c.category = $2`: a chunk whose
cultivar matches the query exactly, is active, belongs to an active
document and lies well below the distance threshold is still not
returned when its category differs, so the retrieval returns nothing at
all here. -/
theorem C7_counterexample :
    retrieve_unified_snippets
      { knowledge_base := [], document_chunks := [exChunk7],
        documents := [exDoc] }
      "питание растений" (some "малина ремонтантная") 2 2 2 1 1 = [] ∧
    exChunk7.subcategory = some "малина ремонтантная" ∧
    exChunk7.is_active = true ∧
    exChunk7.distance ≤ 1 ∧
    exChunk7.category ≠ "питание растений" := by
  refine ⟨by decide, rfl, rfl, by decide, by decide⟩

/-- C7 amended: the Tier-2 document search is restricted by *both* the
consultation category and the specific cultivar label — every row
returned by `chunks_search`, and hence every `document_specific` fragment
returned by `retrieve_unified_snippets`, carries exactly the requested
category and cultivar. -/
theorem C7_tier2_filters (chunks : List ChunkRow) (docs : List DocumentRow)
    (cat s : String) (lim : Nat) (t : Option ℚ) (c : ChunkRow)
    (hc : c ∈ chunks_search chunks docs cat (some s) lim t) :
    (c.category = cat ∧ c.subcategory = some s) ∧
    (∀ (db : RagDb) (qa_limit level2_limit level3_limit : Nat)
      (qa_t doc_t : ℚ) (x : Snippet),
      x ∈ retrieve_unified_snippets db cat (some s) qa_limit level2_limit
        level3_limit qa_t doc_t →
      x.source_type = "document_specific" →
      x.category = cat ∧ x.subcategory = some s) := by
  constructor
  · have hw := chunks_search_mem_where hc
    exact ⟨hw.2.2.1, hw.2.2.2⟩
  · intro db qa_limit level2_limit level3_limit qa_t doc_t x hx hxt
    unfold retrieve_unified_snippets at hx
    have hx2 := (List.mem_insertionSort _).mp hx
    rw [List.mem_append, List.mem_append] at hx2
    rcases hx2 with (h1 | h2) | h3
    · rcases List.mem_map.mp h1 with ⟨r, _, rfl⟩
      exact absurd hxt (by simp [qaSnippet])
    · revert h2
      simp only
      split_ifs with hs
      · intro h; exact absurd h (List.not_mem_nil x)
      · intro h
        rcases List.mem_map.mp h with ⟨cr, hcr, rfl⟩
        have hw := chunks_search_mem_where hcr
        exact ⟨hw.2.2.1, hw.2.2.2⟩
    · revert h3
      cases get_general_subcategory (some s) with
      | none => intro h; exact absurd h (List.not_mem_nil x)
      | some g =>
        simp only
        split_ifs with hg1 hg2
        · intro h; exact absurd h (List.not_mem_nil x)
        · intro h
          rcases List.mem_map.mp h with ⟨cr, _, rfl⟩
          exact absurd hxt (by simp [level3Snippet])
        · intro h; exact absurd h (List.not_mem_nil x)

/-- Witness for C7's amended theorem: a matching chunk is returned and
indeed carries the requested category and cultivar. -/
theorem C7_tier2_filters_witness :
    exChunk ∈ chunks_search [exChunk] [exDoc] "питание растений"
      (some "малина ремонтантная") 2 (some 1) ∧
    exChunk.category = "питание растений" ∧
    exChunk.subcategory = some "малина ремонтантная" := by
  refine ⟨by decide, ?_⟩
  exact (C7_tier2_filters [exChunk] [exDoc] "питание растений"
    "малина ремонтантная" 2 (some 1) exChunk (by decide)).1

/-! ## Claim C3 -/

/-- Counterexample to C3 as stated.  The claim says the classifier
functions never raise past their public contract on *any* external-call
failure.  But both functions fetch the culture list
(`kb_get_distinct_subcategories`) *before* entering their `try` block, so
a failure of that database call propagates out instead of degrading to
the keyword heuristic. -/
theorem C3_counterexample :
    detect_culture_name envDbDown "малина" = .error "db connection failed" ∧
    detect_category_and_culture envDbDown (fun _ => none) "малина" =
      .error "db connection failed" := ⟨rfl, rfl⟩

/-- C3 amended: once the culture-list fetch has succeeded, neither
classifier can fail: each returns some `ok` result, a raising generation
call degrades to the keyword-heuristic fallback with zero cost, an
empty response degrades to the same fallback with the real cost, and a
malformed (unparseable) response likewise falls back in
`detect_category_and_culture`. -/
theorem C3_classifier_fallback (env : ClassifierEnv)
    (jsonLoads : String → Option (String × String)) (text : String)
    (cs : List String) (hdb : env.kb_subcategories = .ok cs) :
    (∃ r, detect_culture_name env text = .ok r) ∧
    (∃ r, detect_category_and_culture env jsonLoads text = .ok r) ∧
    (∀ e, env.llm_response = .error e →
      detect_culture_name env text = .ok (_keyword_fallback text, 0, 0) ∧
      detect_category_and_culture env jsonLoads text =
        .ok (_keyword_category_fallback text, _keyword_fallback text, 0, 0)) ∧
    (∀ resp, env.llm_response = .ok resp → pyStrip resp.content = "" →
      detect_culture_name env text = .ok (_keyword_fallback text,
        calculate_cost resp.model resp.prompt_tokens resp.completion_tokens,
        resp.total_tokens) ∧
      detect_category_and_culture env jsonLoads text =
        .ok (_keyword_category_fallback text, _keyword_fallback text,
          calculate_cost resp.model resp.prompt_tokens resp.completion_tokens,
          resp.total_tokens)) ∧
    (∀ resp, env.llm_response = .ok resp → pyStrip resp.content ≠ "" →
      jsonLoads (stripJsonFence (pyStrip resp.content)) = none →
      detect_category_and_culture env jsonLoads text =
        .ok (_keyword_category_fallback text, _keyword_fallback text,
          calculate_cost resp.model resp.prompt_tokens resp.completion_tokens,
          resp.total_tokens)) := by
  obtain ⟨db, llm⟩ := env
  simp only at hdb
  subst hdb
  refine ⟨?_, ?_, ?_, ?_, ?_⟩
  · cases llm with
    | error e => exact ⟨_, rfl⟩
    | ok resp =>
      unfold detect_culture_name
      dsimp only
      split_ifs <;> exact ⟨_, rfl⟩
  · cases llm with
    | error e => exact ⟨_, rfl⟩
    | ok resp =>
      unfold detect_category_and_culture
      dsimp only
      by_cases hempty : pyStrip resp.content = ""
      · rw [if_pos hempty]; exact ⟨_, rfl⟩
      · rw [if_neg hempty]
        cases jsonLoads (stripJsonFence (pyStrip resp.content)) with
        | none => exact ⟨_, rfl⟩
        | some kv =>
          obtain ⟨category_field, culture_field⟩ := kv
          exact ⟨_, rfl⟩
  · rintro e rfl
    exact ⟨rfl, rfl⟩
  · rintro resp rfl hempty
    constructor
    · unfold detect_culture_name
      dsimp only
      rw [if_pos hempty]
    · unfold detect_category_and_culture
      dsimp only
      rw [if_pos hempty]
  · rintro resp rfl hne hjson
    unfold detect_category_and_culture
    dsimp only
    rw [if_neg hne, hjson]

/-- Witness for C3's amended theorem: DB fetch succeeded, generation call
raised; both classifiers return the keyword fallback, which classifies
the text `малина` as `малина общая`. -/
theorem C3_classifier_fallback_witness :
    detect_culture_name envLlmDown "малина" =
      .ok (_keyword_fallback "малина", 0, 0) ∧
    detect_category_and_culture envLlmDown (fun _ => none) "малина" =
      .ok (_keyword_category_fallback "малина", _keyword_fallback "малина",
        0, 0) ∧
    _keyword_fallback "малина" = "малина общая" := by
  have h := C3_classifier_fallback envLlmDown (fun _ => none) "малина" [] rfl
  have h2 := h.2.2.1 "timeout" rfl
  exact ⟨h2.1, h2.2, by decide⟩

/-! ## Claim C8 -/

/-- C8: `compare_topics_for_change` always returns a decision that is
exactly one of `same_topic`, `clear_change`, `unclear`; and when the
generation call raises, it returns `unclear` (with zero cost and
tokens). -/
theorem C8_compare_decision (llm : Except String LLMUsageResponse)
    (old_category old_culture new_question context_messages : String) :
    ((compare_topics_for_change llm old_category old_culture new_question
        context_messages).1 = "same_topic" ∨
     (compare_topics_for_change llm old_category old_culture new_question
        context_messages).1 = "clear_change" ∨
     (compare_topics_for_change llm old_category old_culture new_question
        context_messages).1 = "unclear") ∧
    (∀ e, llm = .error e →
      compare_topics_for_change llm old_category old_culture new_question
        context_messages = ("unclear", 0, 0)) := by
  constructor
  · cases llm with
    | error e => right; right; rfl
    | ok resp =>
      unfold compare_topics_for_change
      dsimp only
      split_ifs
      · left; rfl
      · right; left; rfl
      · right; right; rfl
  · rintro e rfl
    rfl

/-- Witness for C8: a raising generation call yields `unclear`. -/
theorem C8_compare_decision_witness :
    compare_topics_for_change (.error "timeout") "питание растений"
      "крыжовник" "а про вредителей" "" = ("unclear", 0, 0) :=
  (C8_compare_decision (.error "timeout") "питание растений" "крыжовник"
    "а про вредителей" "").2 "timeout" rfl

/-! ## Claim C5 -/

/-- Counterexample to C5 as stated.  The claim says that on a missing
in-memory context each awaiting-state handler both sends a user-visible
restart message and resets the state to idle.  Neither handler does both:
`handle_nutrition_clarification` resets the state (`pop`) but sends no
message at all, and `handle_variety_clarification` in `entry.py` sends
the apology message but leaves the state entry untouched. -/
theorem C5_counterexample :
    handle_nutrition_clarification_prefix none =
      .finished { replies := [], state_after := none,
                  context_removed := false } ∧
    entry_variety_clarification_prefix
        (some "waiting_variety_clarification") none =
      .finished
        { replies := ["Произошла ошибка. Попробуйте задать вопрос заново."],
          state_after := some "waiting_variety_clarification",
          context_removed := false } :=
  ⟨rfl, rfl⟩

/-- C5 amended: on a missing context every awaiting-state handler returns
early without crashing, but the recovery is split: the nutrition-router
handlers (`waiting_nutrition_clarification` and
`waiting_variety_clarification`) reset the state to idle yet send no
message, while the `entry.py` variety handler sends the apology message
yet leaves the state unchanged. -/
theorem C5_missing_context (state0 : Option String) :
    handle_nutrition_clarification_prefix none =
      .finished { replies := [], state_after := none,
                  context_removed := false } ∧
    nutrition_variety_clarification_prefix none =
      .finished { replies := [], state_after := none,
                  context_removed := false } ∧
    entry_variety_clarification_prefix state0 none =
      .finished
        { replies := ["Произошла ошибка. Попробуйте задать вопрос заново."],
          state_after := state0, context_removed := false } :=
  ⟨rfl, rfl, rfl⟩

/-! ## Claim C9 -/

/-- C9 is a code bug: the handlers assign the *whole* 3-tuple returned by
`detect_culture_name` (they never unpack it), so the value passed to
`set_topic_culture` is the tuple `(culture, cost_usd, tokens)`, not the
cultivar label string — here shown at the failing input `малина` with a
timed-out LLM call: the persisted value is
`("малина общая", 0.0, 0)`, which is not the string `"малина общая"`.
(The repository's own tests, e.g. `test_classification_fix.py`, compare
the return value of `detect_culture_name` against bare label strings.) -/
theorem C9_tuple_persisted :
    detect_culture_name_value envLlmDown "малина" =
      .ok (PyVal.tup [.str "малина общая", .num 0, .num 0]) ∧
    handle_nutrition_root_culture_update
        (PyVal.tup [.str "малина общая", .num 0, .num 0]) =
      PyVal.tup [.str "малина общая", .num 0, .num 0] ∧
    entry_variety_new_culture "голубика" "не знаю"
        (PyVal.tup [.str "малина общая", .num 0, .num 0]) =
      PyVal.tup [.str "малина общая", .num 0, .num 0] ∧
    PyVal.tup [.str "малина общая", .num 0, .num 0] ≠
      PyVal.str "малина общая" := by
  refine ⟨rfl, rfl, rfl, ?_⟩
  intro h
  exact PyVal.noConfusion h

end Sadovniki
